import Mathlib

/-!
Shallow embedding of `src/app/cognito_utils.py` (the token verification and
key-caching routine of the repository), covering:

  * `get_cognito_public_keys` — JWKS fetch, wrapped by `@cached(jwks_cache)`
    with `jwks_cache = TTLCache(maxsize=1, ttl=3600)`;
  * `verify_cognito_token` — the linear verification routine.

Environment variables are modelled as `Option String` with Python truthiness
(absent or empty string is falsy).  The network is modelled as an explicit
`FetchOutcome` oracle passed in.  Python exceptions are modelled by the
`PyError` sum: every `raise ValueError(msg)` becomes `PyError.valueError msg`
and the uncaught `KeyError` from `response.json()["keys"]` becomes
`PyError.keyError "keys"`.  The behaviour of `jose.jwt.decode(token, pem,
algorithms=["RS256"], audience=…, issuer=…, options={verify_exp/nbf/iat,
leeway: 60})` is embedded in `jwt_decode`: the allowed-algorithm check and the
signature check run first (any failure is a `JWTError`), then the claim
validators run in jose's order (iat — a no-op on numeric claims — then nbf,
exp, aud, iss), with `ExpiredSignatureError` for exp and `JWTClaimsError` for
nbf/aud/iss; a missing aud or iss claim passes, as in jose.  Error message
strings keep the source's Japanese text (quote characters dropped).
The cache timer (`time.monotonic`, a `Nat` here) is kept separate from the
wall clock used for claim validation (an `Int` of epoch seconds).
-/

deriving instance DecidableEq for Except

namespace CognitoUtils

/-- Python truthiness of an optional environment string: `None` and `""` are
falsy. -/
def truthy : Option String → Bool
  | none => false
  | some s => !(s == "")

/-- The three Cognito environment variables read at module load. -/
structure Config where
  userPoolId : Option String
  region : Option String
  appClientId : Option String
deriving DecidableEq, Repr

/-- Module-level `JWKS_URL`: built only when `COGNITO_REGION` and
`COGNITO_USER_POOL_ID` are both truthy, otherwise left `None`. -/
def jwksUrl (cfg : Config) : Option String :=
  if truthy cfg.region && truthy cfg.userPoolId then
    some ("https://cognito-idp." ++ cfg.region.getD "" ++ ".amazonaws.com/"
      ++ cfg.userPoolId.getD "" ++ "/.well-known/jwks.json")
  else none

/-- One JWKS key entry.  `kid` identifies the key; `material` abstracts the
public-key parameters; `constructOk` records whether `jwk.construct` /
`to_pem` succeed on this entry. -/
structure JWK where
  kid : String
  material : Nat
  constructOk : Bool
deriving DecidableEq, Repr

/-- A raised Python exception: `ValueError msg`, or the `KeyError` escaping
from `response.json()["keys"]`. -/
inductive PyError where
  | valueError (msg : String)
  | keyError (key : String)
deriving DecidableEq, Repr

/-- Outcome of the HTTP GET against the JWKS URL.  `netError` is a network
failure raised by `requests.get`; `httpError` the exception raised by
`raise_for_status` on a non-2xx response; `jsonError` a JSON-decode failure
of the body (all three are `requests.exceptions.RequestException`s and are
caught by the source's `except` clause); `body keys` is a parsed JSON body,
with `keys = none` when it has no `"keys"` field. -/
inductive FetchOutcome where
  | netError (msg : String)
  | httpError (msg : String)
  | jsonError (msg : String)
  | body (keys : Option (List JWK))
deriving DecidableEq, Repr

def msgEmpty : String := "トークンが空です。"
def msgNoClientId : String := "COGNITO_APP_CLIENT_ID が設定されていません。"
def msgNoConfig : String := "Cognito設定が不足しています。"
def msgNoConfigUrl : String := "Cognito設定が不足しています。JWKS URLを構築できません。"
def msgFetchFail (e : String) : String := "JWKSの取得に失敗しました: " ++ e
def msgBadHeader : String := "無効なトークンヘッダーです: Error decoding token headers."
def msgNoKid : String := "トークンヘッダーに kid が含まれていません。"
def msgUnknownKid (kid : String) : String :=
  "kid (" ++ kid ++ ") に一致する公開鍵がJWKSに見つかりません。"
def msgExpired : String := "トークンの有効期限が切れています。"
def msgClaims (e : String) : String := "トークンのクレームが無効です: " ++ e
def msgInvalidToken (e : String) : String := "無効なトークンです: " ++ e
def msgUnexpected (e : String) : String := "トークン検証中にエラーが発生しました: " ++ e

/-- Python string rendering of an optional value, as in the source's
f-strings (`None` prints as "None"). -/
def optStr : Option String → String
  | none => "None"
  | some s => s

/-- Body of `get_cognito_public_keys` (the function under the `@cached`
decorator): guard on `JWKS_URL`, perform the GET, `raise_for_status`, then
`response.json()["keys"]`.  A `RequestException` (network, HTTP status, or
JSON decode) is caught and re-raised as `ValueError`; a body without a
`"keys"` field raises an uncaught `KeyError`. -/
def get_cognito_public_keys_uncached (cfg : Config) (fetch : FetchOutcome) :
    Except PyError (List JWK) :=
  match jwksUrl cfg with
  | none => .error (.valueError msgNoConfigUrl)
  | some _ =>
    match fetch with
    | .netError e => .error (.valueError (msgFetchFail e))
    | .httpError e => .error (.valueError (msgFetchFail e))
    | .jsonError e => .error (.valueError (msgFetchFail e))
    | .body none => .error (.keyError "keys")
    | .body (some keys) => .ok keys

/-- `jwks_cache = TTLCache(maxsize=1, ttl=3600)`: at most one entry, tagged
with the monotonic store time. -/
def jwks_ttl : Nat := 3600

/-- State of `jwks_cache`: the single slot, `some (storeTime, keys)` when
occupied. -/
structure CacheState where
  entry : Option (Nat × List JWK)
deriving DecidableEq, Repr

/-- Result of one call to the cached `get_cognito_public_keys`: the returned
value or raised error, the cache state afterwards, and whether a network
fetch was performed. -/
structure KeysCall where
  result : Except PyError (List JWK)
  cache : CacheState
  fetched : Bool
deriving DecidableEq, Repr

/-- The `@cached(jwks_cache)` wrapper around `get_cognito_public_keys`:
a stored entry is returned while `mnow < storeTime + ttl` (cachetools treats
an entry as expired once `timer() >= expires`); otherwise the wrapped
function runs, and on success its result is stored with the current timer
value.  On an exception nothing is stored and the error propagates. -/
def get_cognito_public_keys (cfg : Config) (st : CacheState) (mnow : Nat)
    (fetch : FetchOutcome) : KeysCall :=
  match st.entry with
  | some (ts, ks) =>
    if mnow < ts + jwks_ttl then ⟨.ok ks, st, false⟩
    else
      match get_cognito_public_keys_uncached cfg fetch with
      | .ok keys => ⟨.ok keys, ⟨some (mnow, keys)⟩, true⟩
      | .error e => ⟨.error e, st, true⟩
  | none =>
    match get_cognito_public_keys_uncached cfg fetch with
    | .ok keys => ⟨.ok keys, ⟨some (mnow, keys)⟩, true⟩
    | .error e => ⟨.error e, st, true⟩

/-- The JOSE header of a token whose header parsed. -/
structure Header where
  alg : String
  kid : Option String
deriving DecidableEq, Repr

/-- The claims payload of a token.  Fields absent from the token are
`none`. -/
structure Claims where
  iat : Option Int
  nbf : Option Int
  exp : Option Int
  aud : Option String
  iss : Option String
  token_use : Option String
  username : Option String
deriving DecidableEq, Repr

/-- A bearer token as the verifier sees it: the raw string (only emptiness
is inspected), the header if `jwt.get_unverified_headers` succeeds (`none`
models a `JWTError` on parse), the claims payload, and `sigBy`, the key
material that validly RS256-signed the token (`none` for an invalid
signature). -/
structure Token where
  raw : String
  header : Option Header
  claims : Claims
  sigBy : Option Nat
deriving DecidableEq, Repr

/-- Clock-skew leeway passed to `jwt.decode` in its options (seconds). -/
def leeway : Int := 60

/-- Errors raised by `jose.jwt.decode`, as distinguished by the source's
`except` clauses: `ExpiredSignatureError`, `JWTClaimsError`, or any other
`JWTError`. -/
inductive DecodeError where
  | expiredSignature
  | claimsError (msg : String)
  | jwtError (msg : String)
deriving DecidableEq, Repr

/-- jose `_validate_nbf` with leeway: fails when `nbf > now + leeway`. -/
def validate_nbf (cl : Claims) (now : Int) : Except DecodeError Unit :=
  match cl.nbf with
  | none => .ok ()
  | some n =>
    if n > now + leeway then .error (.claimsError "The token is not yet valid (nbf)")
    else .ok ()

/-- jose `_validate_exp` with leeway: fails when `exp < now - leeway`. -/
def validate_exp (cl : Claims) (now : Int) : Except DecodeError Unit :=
  match cl.exp with
  | none => .ok ()
  | some e =>
    if e < now - leeway then .error .expiredSignature
    else .ok ()

/-- jose `_validate_aud`: a missing aud claim passes; a present one must
equal the expected audience. -/
def validate_aud (cl : Claims) (audience : String) : Except DecodeError Unit :=
  match cl.aud with
  | none => .ok ()
  | some a => if a = audience then .ok () else .error (.claimsError "Invalid audience")

/-- jose `_validate_iss`: a missing iss claim passes; a present one must
equal the expected issuer. -/
def validate_iss (cl : Claims) (issuer : String) : Except DecodeError Unit :=
  match cl.iss with
  | none => .ok ()
  | some i => if i = issuer then .ok () else .error (.claimsError "Invalid issuer")

/-- `jose.jwt.decode` with `algorithms=["RS256"]` and the source's options:
`jws.verify` first checks the header's alg against the allowed list, then
the signature; then the claim validators run (iat is a no-op on numeric
claims, then nbf, exp, aud, iss). -/
def jwt_decode (hd : Header) (cl : Claims) (sigOk : Bool)
    (audience : String) (issuer : String) (now : Int) : Except DecodeError Claims :=
  if hd.alg ≠ "RS256" then .error (.jwtError "The specified alg value is not allowed")
  else if !sigOk then .error (.jwtError "Signature verification failed.")
  else
    match validate_nbf cl now with
    | .error e => .error e
    | .ok _ =>
      match validate_exp cl now with
      | .error e => .error e
      | .ok _ =>
        match validate_aud cl audience with
        | .error e => .error e
        | .ok _ =>
          match validate_iss cl issuer with
          | .error e => .error e
          | .ok _ => .ok cl

/-- Issuer URL checked by `jwt.decode`, built from the same environment
variables with Python f-string rendering. -/
def issuerUrl (cfg : Config) : String :=
  "https://cognito-idp." ++ optStr cfg.region ++ ".amazonaws.com/" ++ optStr cfg.userPoolId

/-- Lines 107–135 of the source: the outcome of `jwt.decode` followed by
the token_use check, mapped through the `try/except` clauses.  The
`ValueError` raised for a token_use mismatch inside the `try` block is
caught by the final `except Exception` clause and re-raised wrapped in the
generic unexpected-error message. -/
def mapDecode (dec : Except DecodeError Claims) (token_use : String) :
    Except PyError Claims :=
  match dec with
  | .error .expiredSignature => .error (.valueError msgExpired)
  | .error (.claimsError m) => .error (.valueError (msgClaims m))
  | .error (.jwtError m) => .error (.valueError (msgInvalidToken m))
  | .ok verified_claims =>
    if verified_claims.token_use = some token_use then .ok verified_claims
    else
      .error (.valueError (msgUnexpected
        ("トークンの token_use (" ++ optStr verified_claims.token_use
          ++ ") が期待値 (" ++ token_use ++ ") と異なります。")))

/-- Result of one call to `verify_cognito_token`: the returned claims or
raised error, the cache state afterwards, the number of calls made to
`get_cognito_public_keys`, and whether a network fetch occurred. -/
structure VerifyOut where
  result : Except PyError Claims
  cache : CacheState
  keyCalls : Nat
  fetched : Bool
deriving DecidableEq, Repr

/-- `verify_cognito_token(token, token_use)` from the source (first module
copy, lines 48–135): empty-token guard, the two configuration guards, then
`get_cognito_public_keys()`, header parse, kid extraction (`headers.get`
plus truthiness), linear key lookup by kid, and the `try` block —
`jwk.construct`/`to_pem` (whose failure falls to `except Exception`),
`jwt.decode`, and the token_use check — mapped through the `except`
clauses by `mapDecode`. -/
def verify_cognito_token (cfg : Config) (st : CacheState) (mnow : Nat) (now : Int)
    (fetch : FetchOutcome) (token : Token) (token_use : String) : VerifyOut :=
  if token.raw = "" then ⟨.error (.valueError msgEmpty), st, 0, false⟩
  else if !truthy cfg.appClientId then ⟨.error (.valueError msgNoClientId), st, 0, false⟩
  else
    match jwksUrl cfg with
    | none => ⟨.error (.valueError msgNoConfig), st, 0, false⟩
    | some _ =>
      let kc := get_cognito_public_keys cfg st mnow fetch
      match kc.result with
      | .error e => ⟨.error e, kc.cache, 1, kc.fetched⟩
      | .ok public_keys =>
        match token.header with
        | none => ⟨.error (.valueError msgBadHeader), kc.cache, 1, kc.fetched⟩
        | some headers =>
          if !truthy headers.kid then
            ⟨.error (.valueError msgNoKid), kc.cache, 1, kc.fetched⟩
          else
            let kid := optStr headers.kid
            match public_keys.find? (fun k => k.kid == kid) with
            | none =>
              ⟨.error (.valueError (msgUnknownKid kid)), kc.cache, 1, kc.fetched⟩
            | some key_data =>
              if !key_data.constructOk then
                ⟨.error (.valueError (msgUnexpected "could not construct public key")),
                  kc.cache, 1, kc.fetched⟩
              else
                ⟨mapDecode
                    (jwt_decode headers token.claims (token.sigBy == some key_data.material)
                      (optStr cfg.appClientId) (issuerUrl cfg) now)
                    token_use,
                  kc.cache, 1, kc.fetched⟩

/-- Whether all three required environment variables are set (truthy), the
condition tested by the module-load warning in the source. -/
def configComplete (cfg : Config) : Bool :=
  truthy cfg.userPoolId && truthy cfg.region && truthy cfg.appClientId

/-! ### Concrete fixtures used by witnesses and counterexamples -/

/-- A fully set configuration. -/
def cfgOk : Config := ⟨some "pool1", some "reg1", some "client1"⟩

/-- A signing key present in the fetched key set. -/
def keyA : JWK := ⟨"kidA", 7, true⟩

/-- Claims that pass every check of `jwt_decode` against `cfgOk` at wall
clock 1000, with token_use "access". -/
def goodClaims : Claims :=
  ⟨some 900, some 900, some 2000, some "client1", some (issuerUrl cfgOk),
    some "access", some "alice"⟩

/-- A token that verifies successfully against `cfgOk` and `keyA`. -/
def goodToken : Token := ⟨"tok", some ⟨"RS256", some "kidA"⟩, goodClaims, some 7⟩

/-- A non-empty token whose header does not parse. -/
def badHeaderToken : Token := ⟨"garbage", none, goodClaims, none⟩

/-- A cold cache. -/
def cacheEmpty : CacheState := ⟨none⟩

/-! ### Helper lemmas -/

/-- A string with a fixed head that is not a prefix of `q` differs from `q`
whatever its tail. -/
theorem append_ne_of_isPrefixOf_eq_false (p m q : String)
    (h : p.data.isPrefixOf q.data = false) : p ++ m ≠ q := by
  intro he
  have hdat : p.data ++ m.data = q.data := congrArg String.data he
  have hp : p.data <+: q.data := ⟨m.data, hdat⟩
  rw [← List.isPrefixOf_iff_prefix] at hp
  simp [h] at hp

/-- `mapDecode` reports the expired-token message exactly when `jwt.decode`
raised `ExpiredSignatureError`. -/
theorem mapDecode_eq_expired_iff (d : Except DecodeError Claims) (u : String) :
    mapDecode d u = .error (.valueError msgExpired) ↔ d = .error .expiredSignature := by
  constructor
  · intro h
    match d with
    | .error .expiredSignature => rfl
    | .error (.claimsError m) =>
      exfalso
      simp only [mapDecode, Except.error.injEq, PyError.valueError.injEq] at h
      exact append_ne_of_isPrefixOf_eq_false _ m _ (by decide) h
    | .error (.jwtError m) =>
      exfalso
      simp only [mapDecode, Except.error.injEq, PyError.valueError.injEq] at h
      exact append_ne_of_isPrefixOf_eq_false _ m _ (by decide) h
    | .ok c =>
      exfalso
      simp only [mapDecode] at h
      split at h
      · exact absurd h (by simp)
      · simp only [Except.error.injEq, PyError.valueError.injEq, msgUnexpected] at h
        exact append_ne_of_isPrefixOf_eq_false _ _ _ (by decide) h
  · intro h
    subst h
    rfl

/-- Every error produced by `mapDecode` is a `ValueError`. -/
theorem mapDecode_error_valueError (d : Except DecodeError Claims) (u : String)
    (e : PyError) (h : mapDecode d u = .error e) : ∃ m, e = .valueError m := by
  match d with
  | .error .expiredSignature => exact ⟨_, by simpa [mapDecode] using h.symm⟩
  | .error (.claimsError m) => exact ⟨_, by simpa [mapDecode] using h.symm⟩
  | .error (.jwtError m) => exact ⟨_, by simpa [mapDecode] using h.symm⟩
  | .ok c =>
    simp only [mapDecode] at h
    split at h
    · exact absurd h (by simp)
    · exact ⟨_, by simpa using h.symm⟩

/-- A successful `jwt_decode` implies the header declared RS256. -/
theorem jwt_decode_ok_alg (hd : Header) (cl : Claims) (sigOk : Bool)
    (audience issuer : String) (now : Int) (c : Claims)
    (h : jwt_decode hd cl sigOk audience issuer now = .ok c) : hd.alg = "RS256" := by
  by_cases ha : hd.alg = "RS256"
  · exact ha
  · exfalso
    simp only [jwt_decode, if_pos ha] at h
    exact absurd h (by simp [ha])

/-- A successful `mapDecode` comes from a successful decode. -/
theorem mapDecode_ok_inv (d : Except DecodeError Claims) (u : String) (c : Claims)
    (h : mapDecode d u = .ok c) : d = .ok c := by
  match d with
  | .error .expiredSignature => exact absurd h (by simp [mapDecode])
  | .error (.claimsError m) => exact absurd h (by simp [mapDecode])
  | .error (.jwtError m) => exact absurd h (by simp [mapDecode])
  | .ok c' =>
    simp only [mapDecode] at h
    split at h
    · simpa using h
    · exact absurd h (by simp)

/-- Control-flow lemma: once the guards pass, the header parses, the kid is
present, a key matches and the key constructs, `verify_cognito_token` is the
image of `jwt.decode` plus the token_use check under the `except` clauses. -/
theorem verify_reaches_decode (cfg : Config) (st : CacheState) (mnow : Nat) (now : Int)
    (fetch : FetchOutcome) (token : Token) (use : String)
    (hd : Header) (ks : List JWK) (key_data : JWK)
    (hraw : token.raw ≠ "")
    (hcid : truthy cfg.appClientId = true)
    (hurl : (jwksUrl cfg).isSome = true)
    (hkeys : (get_cognito_public_keys cfg st mnow fetch).result = .ok ks)
    (hhd : token.header = some hd)
    (hkid : truthy hd.kid = true)
    (hfind : ks.find? (fun k => k.kid == optStr hd.kid) = some key_data)
    (hcon : key_data.constructOk = true) :
    verify_cognito_token cfg st mnow now fetch token use =
      ⟨mapDecode
          (jwt_decode hd token.claims (token.sigBy == some key_data.material)
            (optStr cfg.appClientId) (issuerUrl cfg) now) use,
        (get_cognito_public_keys cfg st mnow fetch).cache, 1,
        (get_cognito_public_keys cfg st mnow fetch).fetched⟩ := by
  obtain ⟨u, hu⟩ := Option.isSome_iff_exists.mp hurl
  unfold verify_cognito_token
  rw [if_neg hraw]
  simp only [hcid, Bool.not_true, Bool.false_eq_true, if_false, hu, hkeys, hhd, hkid,
    hfind, hcon]

/-- Inversion: a verification that returns claims parsed a header declaring
RS256. -/
theorem verify_result_ok_alg (cfg : Config) (st : CacheState) (mnow : Nat) (now : Int)
    (fetch : FetchOutcome) (token : Token) (use : String) (c : Claims)
    (h : (verify_cognito_token cfg st mnow now fetch token use).result = .ok c) :
    ∃ hd, token.header = some hd ∧ hd.alg = "RS256" := by
  unfold verify_cognito_token at h
  simp only [] at h
  repeat' split at h
  all_goals simp only [reduceCtorEq] at h
  next hd hhd _ _ key_data hfind _ =>
  exact ⟨hd, hhd,
    jwt_decode_ok_alg _ _ _ _ _ _ _ (mapDecode_ok_inv _ _ _ h)⟩

/-- Cache-miss behaviour when the wrapped fetch fails: the error propagates
and the cache slot is left as it was (nothing stored). -/
theorem cached_on_miss_error (cfg : Config) (st : CacheState) (mnow : Nat)
    (fetch : FetchOutcome) (e : PyError)
    (hmiss : ∀ ts ks, st.entry = some (ts, ks) → ts + jwks_ttl ≤ mnow)
    (he : get_cognito_public_keys_uncached cfg fetch = .error e) :
    get_cognito_public_keys cfg st mnow fetch = ⟨.error e, st, true⟩ := by
  unfold get_cognito_public_keys
  rcases hse : st.entry with _ | ⟨ts0, ks0⟩
  · simp only [hse, he]
  · simp only [hse]
    rw [if_neg (by exact Nat.not_lt.mpr (hmiss ts0 ks0 hse)), he]

/-- Cache-miss behaviour when the wrapped fetch succeeds: one fetch runs and
its result replaces the slot, stamped with the current timer value. -/
theorem cached_on_miss_ok (cfg : Config) (st : CacheState) (mnow : Nat)
    (fetch : FetchOutcome) (keys : List JWK)
    (hmiss : ∀ ts ks, st.entry = some (ts, ks) → ts + jwks_ttl ≤ mnow)
    (hok : get_cognito_public_keys_uncached cfg fetch = .ok keys) :
    get_cognito_public_keys cfg st mnow fetch = ⟨.ok keys, ⟨some (mnow, keys)⟩, true⟩ := by
  unfold get_cognito_public_keys
  rcases hse : st.entry with _ | ⟨ts0, ks0⟩
  · simp only [hse, hok]
  · simp only [hse]
    rw [if_neg (by exact Nat.not_lt.mpr (hmiss ts0 ks0 hse)), hok]

/-! ### Claims -/

/-- C9: the key-set cache preserves the freshness invariant: a cache entry is
returned only while `now - fetch_timestamp < ttl`; within the TTL window
every call to get_cognito_public_keys returns the cached key set with no new
network fetch, and after TTL expiry (or with an empty slot) the next call
triggers exactly one new fetch whose result replaces the cached entry. -/
theorem c9_cache_freshness (cfg : Config) (st : CacheState) (mnow : Nat)
    (fetch : FetchOutcome) (ts : Nat) (ks keys : List JWK) :
    (st.entry = some (ts, ks) → mnow < ts + jwks_ttl →
      get_cognito_public_keys cfg st mnow fetch = ⟨.ok ks, st, false⟩) ∧
    ((∀ ts0 ks0, st.entry = some (ts0, ks0) → ts0 + jwks_ttl ≤ mnow) →
      get_cognito_public_keys_uncached cfg fetch = .ok keys →
      get_cognito_public_keys cfg st mnow fetch = ⟨.ok keys, ⟨some (mnow, keys)⟩, true⟩) := by
  constructor
  · intro he hlt
    unfold get_cognito_public_keys
    simp only [he]
    rw [if_pos hlt]
  · intro hmiss hok
    exact cached_on_miss_ok cfg st mnow fetch keys hmiss hok

/-- Witness for C9: with an entry stored at timer 5, a call at timer 6 is a
hit with no fetch; a call at timer 4000 (past the 3600-second TTL) fetches
once and replaces the entry. -/
theorem c9_witness :
    get_cognito_public_keys cfgOk ⟨some (5, [keyA])⟩ 6 (.netError "down") =
      ⟨.ok [keyA], ⟨some (5, [keyA])⟩, false⟩ ∧
    get_cognito_public_keys cfgOk ⟨some (5, [keyA])⟩ 4000 (.body (some [])) =
      ⟨.ok [], ⟨some (4000, [])⟩, true⟩ :=
  ⟨(c9_cache_freshness cfgOk ⟨some (5, [keyA])⟩ 6 (.netError "down") 5 [keyA] []).1
      rfl (by decide),
   (c9_cache_freshness cfgOk ⟨some (5, [keyA])⟩ 4000 (.body (some [])) 0 [] []).2
      (by
        intro ts0 ks0 h
        injection h with h'
        injection h' with h1 h2
        simp only [jwks_ttl]
        omega) rfl⟩

/-- C4: for every empty token argument, verify_cognito_token fails with
EmptyTokenError and makes no network call: no key-set fetch is attempted,
the cache is untouched, and get_cognito_public_keys is never entered. -/
theorem c4_empty_token_rejected (cfg : Config) (st : CacheState) (mnow : Nat) (now : Int)
    (fetch : FetchOutcome) (token : Token) (use : String) (h : token.raw = "") :
    verify_cognito_token cfg st mnow now fetch token use =
      ⟨.error (.valueError msgEmpty), st, 0, false⟩ := by
  unfold verify_cognito_token
  rw [if_pos h]

/-- Witness for C4 at the empty string token. -/
theorem c4_witness :
    verify_cognito_token cfgOk cacheEmpty 0 1000 (.netError "down")
      ⟨"", none, goodClaims, none⟩ "access" =
      ⟨.error (.valueError msgEmpty), cacheEmpty, 0, false⟩ :=
  c4_empty_token_rejected cfgOk cacheEmpty 0 1000 (.netError "down")
    ⟨"", none, goodClaims, none⟩ "access" rfl

/-- C1 counterexample: with a cold cache and the network down, a non-empty
token whose header cannot be parsed makes verify_cognito_token fail with the
key-fetch error, not at the header-parsing step — so the key-set call does
not occur only after header parsing succeeds. -/
theorem c1_counterexample :
    badHeaderToken.header = none ∧
    (verify_cognito_token cfgOk cacheEmpty 0 1000 (.netError "down") badHeaderToken
        "access").result = .error (.valueError (msgFetchFail "down")) ∧
    (verify_cognito_token cfgOk cacheEmpty 0 1000 (.netError "down") badHeaderToken
        "access").result ≠ .error (.valueError msgBadHeader) :=
  ⟨rfl, rfl, by decide⟩

/-- C1 amended: the key-set cache is consulted before the token header is
parsed.  For every call that passes the empty-token and configuration
guards, the key-set call happens exactly once even when the header is
unparsable; a malformed header is then rejected with MalformedTokenError
only if the key-set call succeeded, while a failed key-set call makes its
own error surface instead. -/
theorem c1_key_call_precedes_header_parse (cfg : Config) (st : CacheState) (mnow : Nat)
    (now : Int) (fetch : FetchOutcome) (token : Token) (use : String)
    (hraw : token.raw ≠ "") (hcid : truthy cfg.appClientId = true)
    (hurl : (jwksUrl cfg).isSome = true) (hhd : token.header = none) :
    (verify_cognito_token cfg st mnow now fetch token use).keyCalls = 1 ∧
    (∀ ks, (get_cognito_public_keys cfg st mnow fetch).result = .ok ks →
      (verify_cognito_token cfg st mnow now fetch token use).result =
        .error (.valueError msgBadHeader)) ∧
    ∀ e, (get_cognito_public_keys cfg st mnow fetch).result = .error e →
      (verify_cognito_token cfg st mnow now fetch token use).result = .error e := by
  obtain ⟨u, hu⟩ := Option.isSome_iff_exists.mp hurl
  unfold verify_cognito_token
  rw [if_neg hraw]
  simp only [hcid, Bool.not_true, Bool.false_eq_true, if_false, hu, hhd]
  refine ⟨?_, ?_, ?_⟩
  · cases hk : (get_cognito_public_keys cfg st mnow fetch).result <;> simp [hk]
  · intro ks hk
    simp [hk]
  · intro e hk
    simp [hk]

/-- Witness for C1's amended statement, applying it with a working network
and with a failing one. -/
theorem c1_witness :
    (verify_cognito_token cfgOk cacheEmpty 0 1000 (.body (some [keyA])) badHeaderToken
        "access").result = .error (.valueError msgBadHeader) ∧
    (verify_cognito_token cfgOk cacheEmpty 0 1000 (.netError "down") badHeaderToken
        "access").keyCalls = 1 :=
  ⟨(c1_key_call_precedes_header_parse cfgOk cacheEmpty 0 1000 (.body (some [keyA]))
      badHeaderToken "access" (by decide) rfl rfl rfl).2.1 [keyA] rfl,
   (c1_key_call_precedes_header_parse cfgOk cacheEmpty 0 1000 (.netError "down")
      badHeaderToken "access" (by decide) rfl rfl rfl).1⟩

/-- C2 counterexample: a 200 response whose JSON body lacks the "keys" field
makes get_cognito_public_keys raise KeyError, not the ValueError that
realises KeyFetchError. -/
theorem c2_counterexample :
    (get_cognito_public_keys cfgOk cacheEmpty 0 (.body none)).result =
      .error (.keyError "keys") ∧
    ¬ ∃ m, (get_cognito_public_keys cfgOk cacheEmpty 0 (.body none)).result =
      .error (.valueError m) := by
  refine ⟨rfl, ?_⟩
  rintro ⟨m, hm⟩
  rw [show (get_cognito_public_keys cfgOk cacheEmpty 0 (.body none)).result =
      .error (.keyError "keys") from rfl] at hm
  simp at hm

/-- C2 amended: on network failure, non-2xx response, or a malformed JSON
body, get_cognito_public_keys fails with the classified ValueError, and an
expired previous cache entry is neither returned nor replaced; but a
well-formed JSON body without a "keys" field raises an uncaught KeyError
instead of the classified error. -/
theorem c2_fetch_failure_classified (cfg : Config) (st : CacheState) (mnow : Nat)
    (e : String) (hurl : (jwksUrl cfg).isSome = true)
    (hmiss : ∀ ts ks, st.entry = some (ts, ks) → ts + jwks_ttl ≤ mnow) :
    get_cognito_public_keys cfg st mnow (.netError e) =
      ⟨.error (.valueError (msgFetchFail e)), st, true⟩ ∧
    get_cognito_public_keys cfg st mnow (.httpError e) =
      ⟨.error (.valueError (msgFetchFail e)), st, true⟩ ∧
    get_cognito_public_keys cfg st mnow (.jsonError e) =
      ⟨.error (.valueError (msgFetchFail e)), st, true⟩ ∧
    get_cognito_public_keys cfg st mnow (.body none) =
      ⟨.error (.keyError "keys"), st, true⟩ := by
  obtain ⟨u, hu⟩ := Option.isSome_iff_exists.mp hurl
  refine ⟨?_, ?_, ?_, ?_⟩ <;>
    exact cached_on_miss_error cfg st mnow _ _ hmiss
      (by simp [get_cognito_public_keys_uncached, hu])

/-- Witness for C2's amended statement on an expired cache entry. -/
theorem c2_witness :
    get_cognito_public_keys cfgOk ⟨some (5, [keyA])⟩ 4000 (.netError "boom") =
      ⟨.error (.valueError (msgFetchFail "boom")), ⟨some (5, [keyA])⟩, true⟩ ∧
    get_cognito_public_keys cfgOk ⟨some (5, [keyA])⟩ 4000 (.body none) =
      ⟨.error (.keyError "keys"), ⟨some (5, [keyA])⟩, true⟩ := by
  have h := c2_fetch_failure_classified cfgOk ⟨some (5, [keyA])⟩ 4000 "boom" rfl
    (by
      intro ts0 ks0 h
      injection h with h'
      injection h' with h1 h2
      simp only [jwks_ttl]
      omega)
  exact ⟨h.1, h.2.2.2⟩

/-- Guard lemma: an empty token is rejected before anything else happens. -/
theorem verify_empty_eq (cfg : Config) (st : CacheState) (mnow : Nat) (now : Int)
    (fetch : FetchOutcome) (token : Token) (use : String) (h : token.raw = "") :
    verify_cognito_token cfg st mnow now fetch token use =
      ⟨.error (.valueError msgEmpty), st, 0, false⟩ := by
  unfold verify_cognito_token
  rw [if_pos h]

/-- Guard lemma: a falsy `COGNITO_APP_CLIENT_ID` is rejected right after the
empty-token check. -/
theorem verify_no_clientid_eq (cfg : Config) (st : CacheState) (mnow : Nat) (now : Int)
    (fetch : FetchOutcome) (token : Token) (use : String)
    (hraw : token.raw ≠ "") (hcid : truthy cfg.appClientId = false) :
    verify_cognito_token cfg st mnow now fetch token use =
      ⟨.error (.valueError msgNoClientId), st, 0, false⟩ := by
  unfold verify_cognito_token
  rw [if_neg hraw]
  simp [hcid]

/-- Guard lemma: with the client id set but `JWKS_URL` unbuilt, the
configuration guard fires before any key-set call. -/
theorem verify_no_config_eq (cfg : Config) (st : CacheState) (mnow : Nat) (now : Int)
    (fetch : FetchOutcome) (token : Token) (use : String)
    (hraw : token.raw ≠ "") (hcid : truthy cfg.appClientId = true)
    (hurl : jwksUrl cfg = none) :
    verify_cognito_token cfg st mnow now fetch token use =
      ⟨.error (.valueError msgNoConfig), st, 0, false⟩ := by
  unfold verify_cognito_token
  rw [if_neg hraw]
  simp [hcid, hurl]

/-- C7 counterexample: with `COGNITO_APP_CLIENT_ID` unset but the token
empty, the call fails with EmptyTokenError, not ConfigurationError — so not
every call fails with the configuration classification. -/
theorem c7_counterexample :
    configComplete ⟨some "pool1", some "reg1", none⟩ = false ∧
    (verify_cognito_token ⟨some "pool1", some "reg1", none⟩ cacheEmpty 0 1000
        (.body (some [keyA])) ⟨"", none, goodClaims, none⟩ "access").result =
      .error (.valueError msgEmpty) ∧
    msgEmpty ≠ msgNoClientId ∧ msgEmpty ≠ msgNoConfig :=
  ⟨rfl, rfl, by decide, by decide⟩

/-- C7 amended: if any required configuration value is unset, no call to
verify_cognito_token ever succeeds; every call with a non-empty token fails
closed with ConfigurationError before any key-set call (zero key calls, no
fetch, cache untouched), while a call with an empty token fails earlier with
EmptyTokenError. -/
theorem c7_incomplete_config_fails_closed (cfg : Config) (st : CacheState) (mnow : Nat)
    (now : Int) (fetch : FetchOutcome) (token : Token) (use : String)
    (h : configComplete cfg = false) :
    (∀ c, (verify_cognito_token cfg st mnow now fetch token use).result ≠ .ok c) ∧
    (token.raw ≠ "" →
      ((verify_cognito_token cfg st mnow now fetch token use).result =
          .error (.valueError msgNoClientId) ∨
        (verify_cognito_token cfg st mnow now fetch token use).result =
          .error (.valueError msgNoConfig)) ∧
      verify_cognito_token cfg st mnow now fetch token use =
        ⟨(verify_cognito_token cfg st mnow now fetch token use).result, st, 0, false⟩) := by
  by_cases hcid : truthy cfg.appClientId = true
  · have hurl : jwksUrl cfg = none := by
      unfold configComplete at h
      rw [hcid, Bool.and_true] at h
      unfold jwksUrl
      rcases Bool.and_eq_false_iff.mp h with h' | h' <;> simp [h']
    constructor
    · intro c hc
      by_cases hraw : token.raw = ""
      · rw [verify_empty_eq cfg st mnow now fetch token use hraw] at hc
        simp at hc
      · rw [verify_no_config_eq cfg st mnow now fetch token use hraw hcid hurl] at hc
        simp at hc
    · intro hraw
      rw [verify_no_config_eq cfg st mnow now fetch token use hraw hcid hurl]
      exact ⟨Or.inr rfl, rfl⟩
  · have hcid' : truthy cfg.appClientId = false := by simpa using hcid
    constructor
    · intro c hc
      by_cases hraw : token.raw = ""
      · rw [verify_empty_eq cfg st mnow now fetch token use hraw] at hc
        simp at hc
      · rw [verify_no_clientid_eq cfg st mnow now fetch token use hraw hcid'] at hc
        simp at hc
    · intro hraw
      rw [verify_no_clientid_eq cfg st mnow now fetch token use hraw hcid']
      exact ⟨Or.inl rfl, rfl⟩

/-- Witness for C7's amended statement: with the client id unset the call
with a non-empty token fails with the configuration classification. -/
theorem c7_witness :
    (∀ c, (verify_cognito_token ⟨some "pool1", some "reg1", none⟩ cacheEmpty 0 1000
        (.body (some [keyA])) goodToken "access").result ≠ .ok c) ∧
    ((verify_cognito_token ⟨some "pool1", some "reg1", none⟩ cacheEmpty 0 1000
        (.body (some [keyA])) goodToken "access").result =
          .error (.valueError msgNoClientId) ∨
      (verify_cognito_token ⟨some "pool1", some "reg1", none⟩ cacheEmpty 0 1000
        (.body (some [keyA])) goodToken "access").result =
          .error (.valueError msgNoConfig)) :=
  ⟨(c7_incomplete_config_fails_closed ⟨some "pool1", some "reg1", none⟩ cacheEmpty 0 1000
      (.body (some [keyA])) goodToken "access" rfl).1,
   ((c7_incomplete_config_fails_closed ⟨some "pool1", some "reg1", none⟩ cacheEmpty 0 1000
      (.body (some [keyA])) goodToken "access" rfl).2 (by decide)).1⟩

/-- C5: a token whose header declares a non-RS256 algorithm is never
accepted, and when the flow reaches jwt.decode it is rejected through the
JWTError path (the SignatureError classification, realised as the invalid
token ValueError with jose's not-allowed-algorithm message). -/
theorem c5_non_rs256_rejected (cfg : Config) (st : CacheState) (mnow : Nat) (now : Int)
    (fetch : FetchOutcome) (token : Token) (use : String) (hd : Header)
    (hhd : token.header = some hd) (halg : hd.alg ≠ "RS256") :
    (∀ c, (verify_cognito_token cfg st mnow now fetch token use).result ≠ .ok c) ∧
    (∀ ks key_data,
      token.raw ≠ "" → truthy cfg.appClientId = true → (jwksUrl cfg).isSome = true →
      (get_cognito_public_keys cfg st mnow fetch).result = .ok ks →
      truthy hd.kid = true →
      ks.find? (fun k => k.kid == optStr hd.kid) = some key_data →
      key_data.constructOk = true →
      (verify_cognito_token cfg st mnow now fetch token use).result =
        .error (.valueError (msgInvalidToken "The specified alg value is not allowed"))) := by
  constructor
  · intro c hc
    obtain ⟨hd', hhd', halg'⟩ := verify_result_ok_alg cfg st mnow now fetch token use c hc
    rw [hhd] at hhd'
    injection hhd' with h'
    exact halg (h' ▸ halg')
  · intro ks key_data hraw hcid hurl hkeys hkid hfind hcon
    rw [verify_reaches_decode cfg st mnow now fetch token use hd ks key_data hraw hcid
      hurl hkeys hhd hkid hfind hcon]
    show mapDecode (jwt_decode hd token.claims _ _ _ now) use = _
    unfold jwt_decode
    rw [if_pos halg]
    rfl

/-- A token identical to `goodToken` except its header algorithm is HS256. -/
def hsToken : Token := ⟨"tok", some ⟨"HS256", some "kidA"⟩, goodClaims, some 7⟩

/-- Witness for C5 at a token valid in every respect except its HS256
algorithm header. -/
theorem c5_witness :
    (∀ c, (verify_cognito_token cfgOk cacheEmpty 0 1000 (.body (some [keyA])) hsToken
        "access").result ≠ .ok c) ∧
    (verify_cognito_token cfgOk cacheEmpty 0 1000 (.body (some [keyA])) hsToken
        "access").result =
      .error (.valueError (msgInvalidToken "The specified alg value is not allowed")) :=
  ⟨(c5_non_rs256_rejected cfgOk cacheEmpty 0 1000 (.body (some [keyA])) hsToken "access"
      ⟨"HS256", some "kidA"⟩ rfl (by decide)).1,
   (c5_non_rs256_rejected cfgOk cacheEmpty 0 1000 (.body (some [keyA])) hsToken "access"
      ⟨"HS256", some "kidA"⟩ rfl (by decide)).2 [keyA] keyA (by decide) rfl rfl rfl rfl
      rfl rfl⟩

/-- C6: a token whose kid is absent from the fetched key set is rejected
with UnknownKeyError after exactly one key-set call; on a cache hit no fetch
happens and the cache is left untouched — there is no forced
invalidate-and-retry. -/
theorem c6_unknown_kid (cfg : Config) (st : CacheState) (mnow : Nat) (now : Int)
    (fetch : FetchOutcome) (token : Token) (use : String) (hd : Header) (ks : List JWK)
    (hraw : token.raw ≠ "") (hcid : truthy cfg.appClientId = true)
    (hurl : (jwksUrl cfg).isSome = true)
    (hkeys : (get_cognito_public_keys cfg st mnow fetch).result = .ok ks)
    (hhd : token.header = some hd) (hkid : truthy hd.kid = true)
    (hfind : ks.find? (fun k => k.kid == optStr hd.kid) = none) :
    verify_cognito_token cfg st mnow now fetch token use =
      ⟨.error (.valueError (msgUnknownKid (optStr hd.kid))),
        (get_cognito_public_keys cfg st mnow fetch).cache, 1,
        (get_cognito_public_keys cfg st mnow fetch).fetched⟩ ∧
    ∀ ts ks0, st.entry = some (ts, ks0) → mnow < ts + jwks_ttl →
      (verify_cognito_token cfg st mnow now fetch token use).fetched = false ∧
      (verify_cognito_token cfg st mnow now fetch token use).cache = st := by
  obtain ⟨u, hu⟩ := Option.isSome_iff_exists.mp hurl
  have hmain : verify_cognito_token cfg st mnow now fetch token use =
      ⟨.error (.valueError (msgUnknownKid (optStr hd.kid))),
        (get_cognito_public_keys cfg st mnow fetch).cache, 1,
        (get_cognito_public_keys cfg st mnow fetch).fetched⟩ := by
    unfold verify_cognito_token
    rw [if_neg hraw]
    simp only [hcid, Bool.not_true, Bool.false_eq_true, if_false, hu, hkeys, hhd, hkid,
      hfind]
  refine ⟨hmain, ?_⟩
  intro ts ks0 hse hlt
  have hcache : get_cognito_public_keys cfg st mnow fetch = ⟨.ok ks0, st, false⟩ := by
    unfold get_cognito_public_keys
    simp only [hse]
    rw [if_pos hlt]
  rw [hmain, hcache]
  exact ⟨rfl, rfl⟩

/-- A token whose kid matches nothing in the fetched key set. -/
def unknownKidToken : Token := ⟨"tok", some ⟨"RS256", some "kidZ"⟩, goodClaims, some 7⟩

/-- Witness for C6 with kid "kidZ" absent from the key set and a warm
cache. -/
theorem c6_witness :
    (verify_cognito_token cfgOk ⟨some (5, [keyA])⟩ 6 1000 (.netError "down")
        unknownKidToken "access").result =
      .error (.valueError (msgUnknownKid "kidZ")) ∧
    (verify_cognito_token cfgOk ⟨some (5, [keyA])⟩ 6 1000 (.netError "down")
        unknownKidToken "access").fetched = false := by
  have h := c6_unknown_kid cfgOk ⟨some (5, [keyA])⟩ 6 1000 (.netError "down")
    unknownKidToken "access" ⟨"RS256", some "kidZ"⟩ [keyA] (by decide) rfl rfl rfl rfl
    rfl rfl
  exact ⟨by rw [h.1]; rfl, (h.2 5 [keyA] rfl (by decide)).1⟩

/-- A token identical to `goodToken` except its token_use claim is "id". -/
def idToken : Token :=
  ⟨"tok", some ⟨"RS256", some "kidA"⟩, { goodClaims with token_use := some "id" }, some 7⟩

/-- C3 (code bug): a token valid in every other respect whose token_use is
"id" while "access" is expected is rejected, but the ValueError raised for
the mismatch is caught by the blanket except-Exception clause and re-raised
wrapped in the generic unexpected-error message — not surfaced as the
distinct token-use-mismatch classification. -/
theorem c3_token_use_mismatch_misclassified :
    (verify_cognito_token cfgOk cacheEmpty 0 1000 (.body (some [keyA])) idToken
        "access").result =
      .error (.valueError (msgUnexpected
        "トークンの token_use (id) が期待値 (access) と異なります。")) ∧
    (verify_cognito_token cfgOk cacheEmpty 0 1000 (.body (some [keyA])) idToken
        "access").result ≠
      .error (.valueError "トークンの token_use (id) が期待値 (access) と異なります。") :=
  ⟨rfl, by decide⟩

/-- Shape lemma: a failing nbf check only ever raises the nbf claims
error. -/
theorem validate_nbf_error (cl : Claims) (now : Int) (e : DecodeError)
    (h : validate_nbf cl now = .error e) :
    e = .claimsError "The token is not yet valid (nbf)" := by
  unfold validate_nbf at h
  rcases hn : cl.nbf with _ | n <;> simp only [hn] at h
  · exact absurd h (by simp)
  · split at h
    · exact (Except.error.inj h).symm
    · exact absurd h (by simp)

/-- Shape lemma: a failing aud check only ever raises the audience claims
error. -/
theorem validate_aud_error (cl : Claims) (a : String) (e : DecodeError)
    (h : validate_aud cl a = .error e) : e = .claimsError "Invalid audience" := by
  unfold validate_aud at h
  rcases hx : cl.aud with _ | x <;> simp only [hx] at h
  · exact absurd h (by simp)
  · split at h
    · exact absurd h (by simp)
    · exact (Except.error.inj h).symm

/-- Shape lemma: a failing iss check only ever raises the issuer claims
error. -/
theorem validate_iss_error (cl : Claims) (i : String) (e : DecodeError)
    (h : validate_iss cl i = .error e) : e = .claimsError "Invalid issuer" := by
  unfold validate_iss at h
  rcases hx : cl.iss with _ | x <;> simp only [hx] at h
  · exact absurd h (by simp)
  · split at h
    · exact absurd h (by simp)
    · exact (Except.error.inj h).symm

/-- When the signature checks pass, the nbf check passes and the exp check
fails, `jwt.decode` raises exactly `ExpiredSignatureError`. -/
theorem jwt_decode_expired (hd : Header) (cl : Claims) (sigOk : Bool)
    (a i : String) (now : Int)
    (halg : hd.alg = "RS256") (hsig : sigOk = true)
    (hnbf : validate_nbf cl now = .ok ())
    (hexp : validate_exp cl now = .error .expiredSignature) :
    jwt_decode hd cl sigOk a i now = .error .expiredSignature := by
  unfold jwt_decode
  rw [if_neg (by simp [halg]), hsig]
  simp only [Bool.not_true, Bool.false_eq_true, if_false, hnbf, hexp]

/-- When the exp check passes, `jwt.decode` never raises
`ExpiredSignatureError`: every other failing validator raises a different
error. -/
theorem jwt_decode_ne_expired (hd : Header) (cl : Claims) (sigOk : Bool)
    (a i : String) (now : Int)
    (hexp : validate_exp cl now = .ok ()) :
    jwt_decode hd cl sigOk a i now ≠ .error .expiredSignature := by
  unfold jwt_decode
  intro hc
  split at hc
  · simp at hc
  split at hc
  · simp at hc
  rcases hn : validate_nbf cl now with e | u
  · simp only [hn] at hc
    have := validate_nbf_error cl now e hn
    simp [this] at hc
  · simp only [hn, hexp] at hc
    rcases ha : validate_aud cl a with e | u2
    · simp only [ha] at hc
      have := validate_aud_error cl a e ha
      simp [this] at hc
    · simp only [ha] at hc
      rcases hi : validate_iss cl i with e | u3
      · simp only [hi] at hc
        have := validate_iss_error cl i e hi
        simp [this] at hc
      · simp only [hi] at hc
        exact Except.noConfusion hc

/-- C8: with signature and earlier checks passing and exp present, a token
expired by more than the 60-second leeway is rejected with
ExpiredTokenError, while a token expired by at most the leeway passes the
expiry check and is never rejected with the expired classification. -/
theorem c8_expiry_leeway (cfg : Config) (st : CacheState) (mnow : Nat) (now : Int)
    (fetch : FetchOutcome) (token : Token) (use : String) (hd : Header) (ks : List JWK)
    (key_data : JWK) (e : Int)
    (hraw : token.raw ≠ "") (hcid : truthy cfg.appClientId = true)
    (hurl : (jwksUrl cfg).isSome = true)
    (hkeys : (get_cognito_public_keys cfg st mnow fetch).result = .ok ks)
    (hhd : token.header = some hd) (hkid : truthy hd.kid = true)
    (hfind : ks.find? (fun k => k.kid == optStr hd.kid) = some key_data)
    (hcon : key_data.constructOk = true)
    (halg : hd.alg = "RS256") (hsig : token.sigBy = some key_data.material)
    (hnbf : validate_nbf token.claims now = .ok ())
    (hexp : token.claims.exp = some e) :
    (leeway < now - e →
      (verify_cognito_token cfg st mnow now fetch token use).result =
        .error (.valueError msgExpired)) ∧
    (now - e ≤ leeway →
      validate_exp token.claims now = .ok () ∧
      (verify_cognito_token cfg st mnow now fetch token use).result ≠
        .error (.valueError msgExpired)) := by
  have hmain := verify_reaches_decode cfg st mnow now fetch token use hd ks key_data
    hraw hcid hurl hkeys hhd hkid hfind hcon
  have hsig' : (token.sigBy == some key_data.material) = true := by
    rw [hsig]
    exact beq_self_eq_true _
  constructor
  · intro hlt
    have hev : validate_exp token.claims now = .error .expiredSignature := by
      unfold validate_exp
      simp only [hexp]
      rw [if_pos (show e < now - leeway by simp only [leeway] at hlt ⊢; omega)]
    rw [hmain]
    show mapDecode (jwt_decode hd token.claims _ _ _ now) use = _
    rw [jwt_decode_expired hd token.claims _ _ _ now halg hsig' hnbf hev]
    rfl
  · intro hle
    have hev : validate_exp token.claims now = .ok () := by
      unfold validate_exp
      simp only [hexp]
      rw [if_neg (show ¬ e < now - leeway by simp only [leeway] at hle ⊢; omega)]
    refine ⟨hev, ?_⟩
    intro hc
    rw [hmain] at hc
    have hc' : mapDecode (jwt_decode hd token.claims
        (token.sigBy == some key_data.material) (optStr cfg.appClientId)
        (issuerUrl cfg) now) use = .error (.valueError msgExpired) := hc
    exact jwt_decode_ne_expired hd token.claims _ _ _ now hev
      ((mapDecode_eq_expired_iff _ _).mp hc')

/-- A token identical to `goodToken` but expired at wall clock 1000: exp
910, 90 seconds in the past. -/
def expiredToken : Token :=
  ⟨"tok", some ⟨"RS256", some "kidA"⟩, { goodClaims with exp := some 910 }, some 7⟩

/-- A token whose exp 970 is 30 seconds in the past at wall clock 1000,
inside the leeway. -/
def inLeewayToken : Token :=
  ⟨"tok", some ⟨"RS256", some "kidA"⟩, { goodClaims with exp := some 970 }, some 7⟩

/-- Witness for C8: 90 seconds past expiry is rejected as expired; 30
seconds past expiry passes the expiry check. -/
theorem c8_witness :
    (verify_cognito_token cfgOk cacheEmpty 0 1000 (.body (some [keyA])) expiredToken
        "access").result = .error (.valueError msgExpired) ∧
    validate_exp inLeewayToken.claims 1000 = .ok () ∧
    (verify_cognito_token cfgOk cacheEmpty 0 1000 (.body (some [keyA])) inLeewayToken
        "access").result ≠ .error (.valueError msgExpired) :=
  ⟨(c8_expiry_leeway cfgOk cacheEmpty 0 1000 (.body (some [keyA])) expiredToken "access"
      ⟨"RS256", some "kidA"⟩ [keyA] keyA 910 (by decide) rfl rfl rfl rfl rfl rfl rfl rfl
      rfl rfl rfl).1 (by decide),
   ((c8_expiry_leeway cfgOk cacheEmpty 0 1000 (.body (some [keyA])) inLeewayToken
      "access" ⟨"RS256", some "kidA"⟩ [keyA] keyA 970 (by decide) rfl rfl rfl rfl rfl rfl
      rfl rfl rfl rfl rfl).2 (by decide)).1,
   ((c8_expiry_leeway cfgOk cacheEmpty 0 1000 (.body (some [keyA])) inLeewayToken
      "access" ⟨"RS256", some "kidA"⟩ [keyA] keyA 970 (by decide) rfl rfl rfl rfl rfl rfl
      rfl rfl rfl rfl rfl).2 (by decide)).2⟩

/-- Every error of the uncached fetch other than the missing-"keys" KeyError
is a ValueError. -/
theorem uncached_error_valueError (cfg : Config) (fetch : FetchOutcome) (e : PyError)
    (hf : fetch ≠ .body none)
    (h : get_cognito_public_keys_uncached cfg fetch = .error e) :
    ∃ m, e = .valueError m := by
  unfold get_cognito_public_keys_uncached at h
  rcases hj : jwksUrl cfg with _ | u <;> simp only [hj] at h
  · exact ⟨_, (Except.error.inj h).symm⟩
  · rcases fetch with e1 | e1 | e1 | ks
    · exact ⟨_, (Except.error.inj h).symm⟩
    · exact ⟨_, (Except.error.inj h).symm⟩
    · exact ⟨_, (Except.error.inj h).symm⟩
    · rcases ks with _ | ks'
      · exact absurd rfl hf
      · simp at h

/-- Every error of the cached fetch other than the missing-"keys" KeyError
is a ValueError. -/
theorem cached_error_valueError (cfg : Config) (st : CacheState) (mnow : Nat)
    (fetch : FetchOutcome) (e : PyError) (hf : fetch ≠ .body none)
    (h : (get_cognito_public_keys cfg st mnow fetch).result = .error e) :
    ∃ m, e = .valueError m := by
  unfold get_cognito_public_keys at h
  rcases hse : st.entry with _ | ⟨ts, ks⟩ <;> simp only [hse] at h
  · rcases hu : get_cognito_public_keys_uncached cfg fetch with e' | ks' <;>
      simp only [hu] at h
    · obtain rfl : e' = e := Except.error.inj h
      exact uncached_error_valueError cfg fetch _ hf hu
    · simp at h
  · split at h
    · simp at h
    · rcases hu : get_cognito_public_keys_uncached cfg fetch with e' | ks' <;>
        simp only [hu] at h
      · obtain rfl : e' = e := Except.error.inj h
        exact uncached_error_valueError cfg fetch _ hf hu
      · simp at h

/-- C10: whenever verify_cognito_token fails at one of its explicit checks
(empty token, missing configuration, unparsable header, missing kid,
unknown kid, key construction, signature/expiry/claims failure, token_use
mismatch) — that is, on any input whose fetch outcome is not the
missing-"keys" body, which is the one uncaught KeyError path — the raised
exception is a ValueError, so the error kinds differ only in message
text. -/
theorem c10_failures_raise_valueError (cfg : Config) (st : CacheState) (mnow : Nat)
    (now : Int) (fetch : FetchOutcome) (token : Token) (use : String) (e : PyError)
    (hf : fetch ≠ .body none)
    (h : (verify_cognito_token cfg st mnow now fetch token use).result = .error e) :
    ∃ m, e = .valueError m := by
  unfold verify_cognito_token at h
  simp only [] at h
  repeat' split at h
  all_goals
    first
      | exact ⟨_, (Except.error.inj h).symm⟩
      | exact mapDecode_error_valueError _ _ _ h
      | simp at h
  next e' heq =>
    exact h ▸ cached_error_valueError cfg st mnow fetch e' hf heq

/-- Witness for C10 at a failing input (network down, malformed header). -/
theorem c10_witness :
    ∃ m, PyError.valueError (msgFetchFail "down") = .valueError m :=
  c10_failures_raise_valueError cfgOk cacheEmpty 0 1000 (.netError "down")
    badHeaderToken "access" (PyError.valueError (msgFetchFail "down")) (by decide) rfl

end CognitoUtils
